import Mathlib

/-!
A shallow embedding of the AVA-prototype constitutional ledger
(`src/research/models/adamprotocol/AVA-prototype/src/{constitutional,blockchain,genesis}.rs`)
together with theorems settling the specification claims about it.

Modelling conventions:
* `DateTime<Utc>` values are unix timestamps (`Int`); every `Utc::now()`
  call site receives an explicit `now` parameter.
* `serde_json::Value` is the `Json` inductive below.
* `HashMap<String, _>` is an association list with overwrite-on-insert
  (`aupsert`); iteration-order-independent facts (counts, lookups) are the
  only ones used by the embedded code.
* `f32`/`f64` arithmetic is modelled exactly: every float value is the
  dyadic rational produced by `floatRound` (IEEE-754 round-to-nearest,
  ties-to-even at 24/53 significand bits, exact for the normal range of
  magnitudes ≥ 2^-64 that the program manipulates), and every float
  operation rounds its exact rational result.
* SHA-256 and serde serialization are external crates: they enter as the
  `HashModel` parameter record, with their relevant properties (fixed
  digest length, collision-freedom) taken as explicit hypotheses.
-/

namespace AVA

set_option maxRecDepth 1000000

/-- JSON values, modelling `serde_json::Value` as far as the core inspects it. -/
inductive Json where
  | null : Json
  | bool : Bool → Json
  | num : ℚ → Json
  | str : String → Json
  | arr : List Json → Json
  | obj : List (String × Json) → Json

/-- `value == serde_json::Value::Null` on the modelled JSON type. -/
def Json.isNull : Json → Bool
  | Json.null => true
  | _ => false

/-! ### Association lists standing in for `HashMap<String, α>` -/

/-- `HashMap::get`. -/
def alookup {α : Type} (k : String) : List (String × α) → Option α
  | [] => none
  | (k2, v) :: t => if k2 = k then some v else alookup k t

/-- `HashMap::insert`: overwrite the binding when the key is present,
append it otherwise. -/
def aupsert {α : Type} (k : String) (v : α) : List (String × α) → List (String × α)
  | [] => [(k, v)]
  | (k2, v2) :: t => if k2 = k then (k2, v) :: t else (k2, v2) :: aupsert k v t

/-- In-place update of the value bound to `k` (`HashMap::get_mut` followed by
a field mutation). -/
def amodify {α : Type} (k : String) (f : α → α) : List (String × α) → List (String × α)
  | [] => []
  | (k2, v) :: t => if k2 = k then (k2, f v) :: t else (k2, v) :: amodify k f t

/-! ### Exact model of IEEE-754 binary rounding (normal range) -/

/-- Exact rational multiplication through `Rat.divInt` (kernel-reducible,
unlike the `Mul ℚ` instance). -/
def qmul (a b : ℚ) : ℚ := Rat.divInt (a.num * b.num) ((a.den : Int) * (b.den : Int))

/-- Exact rational division through `Rat.divInt` (kernel-reducible). -/
def qdiv (a b : ℚ) : ℚ := Rat.divInt (a.num * (b.den : Int)) ((a.den : Int) * b.num)

/-- Exact rational subtraction through `Rat.divInt` (kernel-reducible). -/
def qsub (a b : ℚ) : ℚ :=
  Rat.divInt (a.num * (b.den : Int) - b.num * (a.den : Int)) ((a.den : Int) * (b.den : Int))

/-- Fuelled base-2 logarithm on `Nat` (floor of `log2`, zero on inputs `< 2`). -/
def log2fuel : Nat → Nat → Nat
  | 0, _ => 0
  | f + 1, n => if 2 ≤ n then log2fuel f (n / 2) + 1 else 0

/-- `2 ^ e` as a rational, for an integer exponent. -/
def pow2z (e : Int) : ℚ :=
  if 0 ≤ e then Rat.divInt (2 ^ e.toNat) 1 else Rat.divInt 1 (2 ^ (-e).toNat)

/-- Floor of `log2 q` for a positive rational `q ≥ 2 ^ (-64)`. -/
def qlog2 (q : ℚ) : Int :=
  (log2fuel 300 ((q.num.toNat * 2 ^ 64) / q.den) : Int) - 64

/-- Floor of a rational as an integer (Euclidean division by the positive
denominator). -/
def ratFloor (q : ℚ) : Int := q.num / (q.den : Int)

/-- Round a rational to the nearest integer, ties to even. -/
def roundTiesEven (x : ℚ) : Int :=
  let f := ratFloor x
  let r := qsub x (Rat.divInt f 1)
  if r < Rat.divInt 1 2 then f
  else if Rat.divInt 1 2 < r then f + 1
  else if f % 2 = 0 then f else f + 1

/-- IEEE-754 round-to-nearest-even at `prec` significand bits, exact for
magnitudes in the normal range (`≥ 2 ^ (-64)` suffices for this program). -/
def floatRound (prec : Nat) (q : ℚ) : ℚ :=
  if q = 0 then 0
  else if q < 0 then
    -(let p := -q
      let e := qlog2 p
      qmul (Rat.divInt (roundTiesEven (qmul p (pow2z ((prec : Int) - 1 - e)))) 1)
        (pow2z (e - ((prec : Int) - 1))))
  else
    let e := qlog2 q
    qmul (Rat.divInt (roundTiesEven (qmul q (pow2z ((prec : Int) - 1 - e)))) 1)
      (pow2z (e - ((prec : Int) - 1)))

/-- The `f32` value denoted by an exact rational (e.g. a Rust float literal). -/
def f32round (q : ℚ) : ℚ := floatRound 24 q

/-- The `f64` value denoted by an exact rational. -/
def f64round (q : ℚ) : ℚ := floatRound 53 q

/-- `f32` division: divide exactly, then round. -/
def f32div (a b : ℚ) : ℚ := f32round (qdiv a b)

/-! ### Data model shared by the engine and the ledger (`blockchain.rs`) -/

/-- `blockchain.rs` `TransactionType`. -/
inductive TransactionType where
  | GenesisCreation
  | EntityRegistration
  | GovernanceProposal
  | ConstitutionalAmendment
  | ResourceAllocation
  | ModuleDeployment
  | CrossChainBridge
  | AIModelUpdate
  | PermissionGrant
  | EmergencyAction
deriving DecidableEq

/-- `blockchain.rs` `Transaction`. -/
structure Transaction where
  id : String
  transaction_type : TransactionType
  sender : String
  recipient : Option String
  data : Json
  timestamp : Int
  signature : String
  constitutional_validation : Bool

/-! ### Constitutional engine (`constitutional.rs`) -/

/-- `constitutional.rs` `RuleType`. -/
inductive RuleType where
  | VotingRule
  | AuthorizationRule
  | ResourceRule
  | ConstitutionalRule
  | EmergencyRule
  | OperationalRule
deriving DecidableEq

/-- `constitutional.rs` `EnforcementLevel`. -/
inductive EnforcementLevel where
  | Advisory
  | Warning
  | Blocking
  | Constitutional
deriving DecidableEq

/-- `constitutional.rs` `GovernanceRule`. -/
structure GovernanceRule where
  id : String
  rule_type : RuleType
  description : String
  enforcement_level : EnforcementLevel
  created_at : Int
  created_by : String
  parameters : List (String × Json)
  active : Bool

/-- `constitutional.rs` `ProposalType`. -/
inductive ProposalType where
  | RuleAddition
  | RuleModification
  | RuleRemoval
  | ConstitutionalAmendment
  | ResourceAllocation
  | ModuleUpgrade
  | EmergencyAction
  | PolicyChange
deriving DecidableEq

/-- `constitutional.rs` `ProposalStatus`. -/
inductive ProposalStatus where
  | Draft
  | VotingActive
  | QuorumNotMet
  | Rejected
  | Approved
  | Implemented
  | Cancelled
deriving DecidableEq

/-- `constitutional.rs` `VoteType`. -/
inductive VoteType where
  | For
  | Against
  | Abstain
deriving DecidableEq

/-- `constitutional.rs` `Vote`.  `weight : f32` is carried as its exact value. -/
structure Vote where
  voter : String
  vote_type : VoteType
  timestamp : Int
  rationale : Option String
  weight : ℚ
deriving DecidableEq

/-- `constitutional.rs` `Proposal`.  The two `f32` thresholds are carried as
the exact rationals they denote. -/
structure Proposal where
  id : String
  proposal_type : ProposalType
  title : String
  description : String
  proposer : String
  created_at : Int
  voting_deadline : Int
  required_quorum : ℚ
  required_majority : ℚ
  votes : List (String × Vote)
  status : ProposalStatus
  implementation_details : Json

/-- `constitutional.rs` `VoteResult`. -/
inductive VoteResult where
  | Passed
  | Failed
  | QuorumNotMet
  | Cancelled
deriving DecidableEq

/-- `constitutional.rs` `VotingRecord`.  The `u32` counters are `Nat`
(the source casts small exact `f32` counts). -/
structure VotingRecord where
  proposal_id : String
  total_eligible_voters : Nat
  total_votes_cast : Nat
  votes_for : Nat
  votes_against : Nat
  votes_abstain : Nat
  final_result : VoteResult
  participation_rate : ℚ
deriving DecidableEq

/-- `constitutional.rs` `EventType`. -/
inductive EventType where
  | RuleCreation
  | RuleModification
  | RuleEnforcement
  | ViolationDetected
  | ProposalSubmitted
  | VoteCast
  | ProposalResolved
  | EmergencyAction
  | ConstitutionalAmendment
deriving DecidableEq

/-- `constitutional.rs` `ConstitutionalEvent`. -/
structure ConstitutionalEvent where
  id : String
  event_type : EventType
  description : String
  timestamp : Int
  actor : String
  affected_entities : List String
  metadata : List (String × Json)

/-- `constitutional.rs` `ConstitutionalEngine`. -/
structure ConstitutionalEngine where
  rules : List GovernanceRule
  active_proposals : List (String × Proposal)
  voting_records : List (String × VotingRecord)
  constitutional_history : List ConstitutionalEvent

/-- `constitutional.rs` `ValidationResult`. -/
inductive ValidationResult where
  | Approved
  | ApprovedWithWarnings : List String → ValidationResult
  | Rejected : List String → ValidationResult
deriving DecidableEq

/-- `constitutional.rs` `RuleViolation`. -/
inductive RuleViolation where
  | None
  | Warning : String → RuleViolation
  | Blocking : String → RuleViolation
deriving DecidableEq

/-- `ConstitutionalEngine::initialize_foundational_rules`: the four seeded
rules (every `Utc::now()` is the `now` argument; the two JSON parameters are
the `f64` values of the Rust literals `0.51` and `0.67`). -/
def foundational_rules (now : Int) : List GovernanceRule :=
  [ { id := "artifact_virtual_supremacy"
    , rule_type := RuleType.ConstitutionalRule
    , description := "Artifact Virtual maintains ultimate constitutional authority"
    , enforcement_level := EnforcementLevel.Constitutional
    , created_at := now
    , created_by := "GENESIS"
    , parameters := []
    , active := true }
  , { id := "ava_governance_authority"
    , rule_type := RuleType.AuthorizationRule
    , description := "AVA has authority to govern container operations"
    , enforcement_level := EnforcementLevel.Blocking
    , created_at := now
    , created_by := "GENESIS"
    , parameters := []
    , active := true }
  , { id := "democratic_voting"
    , rule_type := RuleType.VotingRule
    , description := "Major decisions require democratic voting process"
    , enforcement_level := EnforcementLevel.Blocking
    , created_at := now
    , created_by := "GENESIS"
    , parameters := [ ("quorum_threshold", Json.num (f64round (51 / 100)))
                    , ("majority_threshold", Json.num (f64round (67 / 100))) ]
    , active := true }
  , { id := "transparency_requirement"
    , rule_type := RuleType.OperationalRule
    , description := "All governance actions must be transparent and auditable"
    , enforcement_level := EnforcementLevel.Blocking
    , created_at := now
    , created_by := "GENESIS"
    , parameters := []
    , active := true } ]

/-- `ConstitutionalEngine::new`: empty state seeded with the foundational rules. -/
def ConstitutionalEngine.new (now : Int) : ConstitutionalEngine :=
  { rules := foundational_rules now
  , active_proposals := []
  , voting_records := []
  , constitutional_history := [] }

/-- `ConstitutionalEngine::requires_artifact_virtual_approval`. -/
def ConstitutionalEngine.requires_artifact_virtual_approval
    (_e : ConstitutionalEngine) (tx : Transaction) : Bool :=
  match tx.transaction_type with
  | TransactionType.ConstitutionalAmendment => true
  | TransactionType.EmergencyAction => true
  | _ => false

/-- `ConstitutionalEngine::requires_democratic_vote`. -/
def ConstitutionalEngine.requires_democratic_vote
    (_e : ConstitutionalEngine) (tx : Transaction) : Bool :=
  match tx.transaction_type with
  | TransactionType.GovernanceProposal => true
  | TransactionType.ResourceAllocation => true
  | TransactionType.AIModelUpdate => true
  | _ => false

/-- `ConstitutionalEngine::apply_rule`.  Note the source only fires the
supremacy check for rules of kind `AuthorizationRule` whose id is
`artifact_virtual_supremacy`, and all fall-through paths return
`Ok(RuleViolation::None)`. -/
def ConstitutionalEngine.apply_rule (e : ConstitutionalEngine)
    (rule : GovernanceRule) (tx : Transaction) : Except String RuleViolation :=
  match rule.rule_type with
  | RuleType.AuthorizationRule =>
      if rule.id = "artifact_virtual_supremacy" then
        if e.requires_artifact_virtual_approval tx && (tx.sender != "Artifact Virtual") then
          Except.ok (RuleViolation.Blocking "Action requires Artifact Virtual approval")
        else Except.ok RuleViolation.None
      else Except.ok RuleViolation.None
  | RuleType.VotingRule =>
      if rule.id = "democratic_voting" then
        if e.requires_democratic_vote tx && !tx.constitutional_validation then
          Except.ok (RuleViolation.Blocking "Action requires democratic voting process")
        else Except.ok RuleViolation.None
      else Except.ok RuleViolation.None
  | RuleType.OperationalRule =>
      if rule.id = "transparency_requirement" then
        if tx.data.isNull then
          Except.ok (RuleViolation.Warning "Transaction lacks detailed documentation")
        else Except.ok RuleViolation.None
      else Except.ok RuleViolation.None
  | _ => Except.ok RuleViolation.None

/-- The loop body of `ConstitutionalEngine::validate_transaction`, with the
`violations` and `warnings` accumulators explicit. -/
def validateLoop (e : ConstitutionalEngine) (tx : Transaction) :
    List GovernanceRule → List String → List String → Except String ValidationResult
  | [], violations, warnings =>
      if violations ≠ [] then Except.ok (ValidationResult.Rejected violations)
      else if warnings ≠ [] then Except.ok (ValidationResult.ApprovedWithWarnings warnings)
      else Except.ok ValidationResult.Approved
  | rule :: rest, violations, warnings =>
      if rule.active = false then validateLoop e tx rest violations warnings
      else
        match e.apply_rule rule tx with
        | Except.error msg => Except.error msg
        | Except.ok RuleViolation.None => validateLoop e tx rest violations warnings
        | Except.ok (RuleViolation.Warning m) => validateLoop e tx rest violations (warnings ++ [m])
        | Except.ok (RuleViolation.Blocking m) => validateLoop e tx rest (violations ++ [m]) warnings

/-- `ConstitutionalEngine::validate_transaction`. -/
def ConstitutionalEngine.validate_transaction (e : ConstitutionalEngine)
    (tx : Transaction) : Except String ValidationResult :=
  validateLoop e tx e.rules [] []

/-- The outcome `apply_rule` reports for one rule (it can never error). -/
def ruleOutcome (e : ConstitutionalEngine) (rule : GovernanceRule)
    (tx : Transaction) : RuleViolation :=
  match rule.rule_type with
  | RuleType.AuthorizationRule =>
      if rule.id = "artifact_virtual_supremacy" then
        if e.requires_artifact_virtual_approval tx && (tx.sender != "Artifact Virtual") then
          RuleViolation.Blocking "Action requires Artifact Virtual approval"
        else RuleViolation.None
      else RuleViolation.None
  | RuleType.VotingRule =>
      if rule.id = "democratic_voting" then
        if e.requires_democratic_vote tx && !tx.constitutional_validation then
          RuleViolation.Blocking "Action requires democratic voting process"
        else RuleViolation.None
      else RuleViolation.None
  | RuleType.OperationalRule =>
      if rule.id = "transparency_requirement" then
        if tx.data.isNull then
          RuleViolation.Warning "Transaction lacks detailed documentation"
        else RuleViolation.None
      else RuleViolation.None
  | _ => RuleViolation.None

/-- All blocking messages the active rules of `rs` produce for `tx`, in order. -/
def blockingMsgs (e : ConstitutionalEngine) (tx : Transaction)
    (rs : List GovernanceRule) : List String :=
  rs.filterMap fun r =>
    if r.active then
      match ruleOutcome e r tx with
      | RuleViolation.Blocking m => some m
      | _ => none
    else none

/-- All warning messages the active rules of `rs` produce for `tx`, in order. -/
def warningMsgs (e : ConstitutionalEngine) (tx : Transaction)
    (rs : List GovernanceRule) : List String :=
  rs.filterMap fun r =>
    if r.active then
      match ruleOutcome e r tx with
      | RuleViolation.Warning m => some m
      | _ => none
    else none

/-- Assemble the final `ValidationResult` from the two accumulated lists. -/
def assembleResult (violations warnings : List String) : ValidationResult :=
  if violations ≠ [] then ValidationResult.Rejected violations
  else if warnings ≠ [] then ValidationResult.ApprovedWithWarnings warnings
  else ValidationResult.Approved

/-- `format!("{:?}", status)` for `ProposalStatus`. -/
def ProposalStatus.reprStr : ProposalStatus → String
  | ProposalStatus.Draft => "Draft"
  | ProposalStatus.VotingActive => "VotingActive"
  | ProposalStatus.QuorumNotMet => "QuorumNotMet"
  | ProposalStatus.Rejected => "Rejected"
  | ProposalStatus.Approved => "Approved"
  | ProposalStatus.Implemented => "Implemented"
  | ProposalStatus.Cancelled => "Cancelled"

/-- `format!("{:?}", vote_type)` for `VoteType`. -/
def VoteType.reprStr : VoteType → String
  | VoteType.For => "For"
  | VoteType.Against => "Against"
  | VoteType.Abstain => "Abstain"

/-! ### Resolution helpers (the `new_status`, `voting_record` and `event`
locals of `check_proposal_resolution`, and the `event` local of `cast_vote`,
as named definitions) -/

/-- The `new_status` decision of `check_proposal_resolution`: quorum check
(participation = votes cast / 10 eligible, in `f32`), then majority check
(`>=` in `f32`); else QuorumNotMet once the deadline has passed; else no
transition. -/
def resolutionStatus (now : Int) (p : Proposal) : Option ProposalStatus :=
  let nTotal : Nat := p.votes.length
  let nFor : Nat := (p.votes.filter fun kv =>
    match kv.2.vote_type with | VoteType.For => true | _ => false).length
  let participation_rate : Rat := f32div ((nTotal : Rat)) 10
  if participation_rate >= p.required_quorum then
    let approval_rate : Rat := f32div ((nFor : Rat)) ((nTotal : Rat))
    if approval_rate >= p.required_majority then some ProposalStatus.Approved
    else some ProposalStatus.Rejected
  else if now > p.voting_deadline then some ProposalStatus.QuorumNotMet
  else none

/-- The `VotingRecord` snapshot `check_proposal_resolution` writes when it
moves proposal `pid` (with vote map `p.votes`) to `st`. -/
def resolvedRecord (pid : String) (p : Proposal) (st : ProposalStatus) : VotingRecord :=
  let nTotal : Nat := p.votes.length
  let nFor : Nat := (p.votes.filter fun kv =>
    match kv.2.vote_type with | VoteType.For => true | _ => false).length
  let nAgainst : Nat := (p.votes.filter fun kv =>
    match kv.2.vote_type with | VoteType.Against => true | _ => false).length
  { proposal_id := pid
  , total_eligible_voters := 10
  , total_votes_cast := nTotal
  , votes_for := nFor
  , votes_against := nAgainst
  , votes_abstain := nTotal - nFor - nAgainst
  , final_result :=
      match st with
      | ProposalStatus.Approved => VoteResult.Passed
      | ProposalStatus.Rejected => VoteResult.Failed
      | ProposalStatus.QuorumNotMet => VoteResult.QuorumNotMet
      | _ => VoteResult.Failed
  , participation_rate := f32div ((p.votes.length : ℚ)) 10 }

/-- The `ProposalResolved` event `check_proposal_resolution` appends. -/
def resolvedEvent (now : Int) (pid : String) (st : ProposalStatus) : ConstitutionalEvent :=
  { id := "event_" ++ toString now
  , event_type := EventType.ProposalResolved
  , description := "Proposal " ++ pid ++ " resolved with status: " ++ st.reprStr
  , timestamp := now
  , actor := "SYSTEM"
  , affected_entities := [pid]
  , metadata := [] }

/-- The `VoteCast` event `cast_vote` appends. -/
def voteCastEvent (now : Int) (pid : String) (v : Vote) : ConstitutionalEvent :=
  { id := "event_" ++ toString now
  , event_type := EventType.VoteCast
  , description := "Vote cast by " ++ v.voter ++ " on proposal " ++ pid
  , timestamp := now
  , actor := v.voter
  , affected_entities := [pid]
  , metadata := [ ("proposal_id", Json.str pid)
                , ("vote_type", Json.str v.vote_type.reprStr) ] }


/-- `ConstitutionalEngine::check_proposal_resolution`.  The vote counts are
kept as `Nat` and injected into `ℚ` where the source works with exact small
`f32` values; the two rate divisions round like `f32`. -/
def ConstitutionalEngine.check_proposal_resolution (now : Int)
    (e : ConstitutionalEngine) (pid : String) : ConstitutionalEngine × Except String Unit :=
  match alookup pid e.active_proposals with
  | none => (e, Except.error "Proposal not found")
  | some proposal =>
      match resolutionStatus now proposal with
      | none => (e, Except.ok ())
      | some status =>
          ( { e with
                active_proposals :=
                  amodify pid (fun p => { p with status := status }) e.active_proposals
              , voting_records := aupsert pid (resolvedRecord pid proposal status) e.voting_records
              , constitutional_history := e.constitutional_history ++ [resolvedEvent now pid status] }
          , Except.ok () )

/-- `ConstitutionalEngine::cast_vote`. -/
def ConstitutionalEngine.cast_vote (now : Int) (e : ConstitutionalEngine)
    (pid : String) (vote : Vote) : ConstitutionalEngine × Except String Unit :=
  match alookup pid e.active_proposals with
  | none => (e, Except.error "Proposal not found")
  | some proposal =>
      if proposal.status ≠ ProposalStatus.VotingActive then
        (e, Except.error "Proposal is not accepting votes")
      else if now > proposal.voting_deadline then
        let expired :=
          amodify pid (fun p => { p with status := ProposalStatus.QuorumNotMet })
            e.active_proposals
        ({ e with active_proposals := expired }, Except.error "Voting deadline has passed")
      else
        let withVote :=
          amodify pid (fun p => { p with votes := aupsert vote.voter vote p.votes })
            e.active_proposals
        let e1 := { e with active_proposals := withVote }
        let event : ConstitutionalEvent :=
          { id := "event_" ++ toString now
          , event_type := EventType.VoteCast
          , description := "Vote cast by " ++ vote.voter ++ " on proposal " ++ pid
          , timestamp := now
          , actor := vote.voter
          , affected_entities := [pid]
          , metadata := [ ("proposal_id", Json.str pid)
                        , ("vote_type", Json.str vote.vote_type.reprStr) ] }
        let e2 := { e1 with constitutional_history := e1.constitutional_history ++ [event] }
        let result := ConstitutionalEngine.check_proposal_resolution now e2 pid
        (result.1, result.2.map fun _ => ())

/-! ### Concrete voting scenarios (claim C2) -/

/-- An unweighted vote as the scenarios cast it. -/
def mkVote (voter : String) (t : VoteType) (now : Int) : Vote :=
  { voter := voter, vote_type := t, timestamp := now, rationale := none, weight := 1 }

/-- Cast a sequence of votes at one instant, keeping the engine state. -/
def castSeq (pid : String) (now : Int) :
    ConstitutionalEngine → List (String × VoteType) → ConstitutionalEngine
  | e, [] => e
  | e, (v, t) :: rest =>
      castSeq pid now (ConstitutionalEngine.cast_vote now e pid (mkVote v t now)).1 rest

/-- The stored status of a proposal. -/
def statusOf (e : ConstitutionalEngine) (pid : String) : Option ProposalStatus :=
  (alookup pid e.active_proposals).map fun p => p.status

/-- A voting-active proposal with the given thresholds and deadline. -/
def scenProposal (q maj : ℚ) (deadline : Int) : Proposal :=
  { id := "p1", proposal_type := ProposalType.PolicyChange, title := "Test Proposal"
  , description := "A test proposal", proposer := "alice", created_at := 0
  , voting_deadline := deadline, required_quorum := q, required_majority := maj
  , votes := [], status := ProposalStatus.VotingActive
  , implementation_details := Json.null }

/-- A fresh engine holding one voting-active proposal `p1`. -/
def scenEngine (q maj : ℚ) (deadline : Int) : ConstitutionalEngine :=
  { ConstitutionalEngine.new 0 with active_proposals := [("p1", scenProposal q maj deadline)] }

/-! ### Concrete inputs for the engine claims -/

/-- A constitutional-amendment transaction whose sender is not the root
entity (claim C1 failing input). -/
def txAmendment : Transaction :=
  { id := "tx_amendment_1", transaction_type := TransactionType.ConstitutionalAmendment
  , sender := "mallory", recipient := none, data := Json.str "amendment details"
  , timestamp := 0, signature := "sig_1", constitutional_validation := true }

/-- An emergency-action transaction whose sender is not the root entity
(claim C1 failing input). -/
def txEmergency : Transaction :=
  { id := "tx_emergency_1", transaction_type := TransactionType.EmergencyAction
  , sender := "mallory", recipient := none, data := Json.str "emergency details"
  , timestamp := 0, signature := "sig_2", constitutional_validation := true }

/-- C2 scenario 1 run: quorum 0.5, majority 0.67, five distinct For votes. -/
def c2run1 : ConstitutionalEngine :=
  castSeq "p1" 10 (scenEngine (f32round (Rat.divInt 1 2)) (f32round (Rat.divInt 67 100)) 100)
    [ ("v1", VoteType.For), ("v2", VoteType.For), ("v3", VoteType.For)
    , ("v4", VoteType.For), ("v5", VoteType.For) ]

/-- C2 scenario 2 run: quorum 0.5, majority 0.8, four For and one Against. -/
def c2run2 : ConstitutionalEngine :=
  castSeq "p1" 10 (scenEngine (f32round (Rat.divInt 1 2)) (f32round (Rat.divInt 4 5)) 100)
    [ ("v1", VoteType.For), ("v2", VoteType.For), ("v3", VoteType.For)
    , ("v4", VoteType.For), ("v5", VoteType.Against) ]

/-- C2 scenario 3, first stage: two votes before the deadline. -/
def c2run3a : ConstitutionalEngine :=
  castSeq "p1" 10 (scenEngine (f32round (Rat.divInt 1 2)) (f32round (Rat.divInt 67 100)) 100)
    [ ("v1", VoteType.For), ("v2", VoteType.For) ]

/-- C2 scenario 3, second stage: one more vote attempt after the deadline. -/
def c2run3 : ConstitutionalEngine × Except String Unit :=
  ConstitutionalEngine.cast_vote 200 c2run3a "p1" (mkVote "v3" VoteType.For 200)

/-- A voting-active proposal already holding five For votes but no cast
after the deadline (claim C5 concrete transition input). -/
def c5prop : Proposal :=
  { scenProposal (f32round (Rat.divInt 1 2)) (f32round (Rat.divInt 67 100)) 100 with
      votes := [ ("v1", mkVote "v1" VoteType.For 5), ("v2", mkVote "v2" VoteType.For 5)
               , ("v3", mkVote "v3" VoteType.For 5), ("v4", mkVote "v4" VoteType.For 5)
               , ("v5", mkVote "v5" VoteType.For 5) ] }

/-- Engine holding `c5prop` (claim C5 concrete transition input). -/
def c5eng : ConstitutionalEngine :=
  { ConstitutionalEngine.new 0 with active_proposals := [("p1", c5prop)] }

/-- Engine holding a voting-active proposal whose deadline (100) has passed
(claims C5/C8 deadline branch input). -/
def c5engLate : ConstitutionalEngine :=
  scenEngine (f32round (Rat.divInt 1 2)) (f32round (Rat.divInt 67 100)) 100

/-- The deadline-expiry cast: a vote arriving at time 200 on `c5engLate`. -/
def c5lateCast : ConstitutionalEngine × Except String Unit :=
  ConstitutionalEngine.cast_vote 200 c5engLate "p1" (mkVote "bob" VoteType.For 200)

/-- The concrete live vote used by the C8 witness. -/
def c8vote : Vote := mkVote "v1" VoteType.For 10

/-- Engine holding a Draft (not voting-active) proposal (claim C8 input). -/
def c8engDraft : ConstitutionalEngine :=
  { ConstitutionalEngine.new 0 with active_proposals :=
      [("p1", { scenProposal (f32round (Rat.divInt 1 2)) (f32round (Rat.divInt 67 100)) 100 with
                  status := ProposalStatus.Draft })] }

/-! ### Ledger data model (`blockchain.rs`) -/

/-- `blockchain.rs` `EntityType`. -/
inductive EntityType where
  | ParentOrganization
  | IntelligenceModule
  | ContainerService
  | GovernanceBody
  | ResourcePool
  | ExternalPartner
deriving DecidableEq

/-- `blockchain.rs` `Rule` (admission-time constraints).  The `f32` of
`VotingQuorum` is carried as the exact rational it denotes. -/
inductive Rule where
  | RequiresSignature : String → Rule
  | VotingQuorum : ℚ → Rule
  | TimeDelay : Nat → Rule
  | ConsensusRequired : List String → Rule
  | ArtifactVirtualIntelligenceApproval : Rule
  | ConstitutionalAmendment : Rule
  | GenesisReferenceRequired : Rule
  | AIValidation : String → Rule
  | ResourceCheck : Nat → Rule
deriving DecidableEq

/-- `blockchain.rs` `EntityMetadata`. -/
structure EntityMetadata where
  name : String
  entity_type : EntityType
  genesis_timestamp : Int
  description : String
  maintainers : List String
  capabilities : List String
  vision_statement : String
  parent_entity : Option String
  child_entities : List String
  constitutional_constraints : List Rule
deriving DecidableEq

/-- `blockchain.rs` `GovernanceActionType`. -/
inductive GovernanceActionType where
  | PolicyUpdate
  | ResourceAllocation
  | ModuleActivation
  | PermissionChange
  | EmergencyResponse
  | ConstitutionalChange
deriving DecidableEq

/-- `blockchain.rs` `ActionStatus`. -/
inductive ActionStatus where
  | Proposed
  | VotingActive
  | Approved
  | Rejected
  | Executed
  | Cancelled
deriving DecidableEq

/-- `blockchain.rs` `GovernanceAction`. -/
structure GovernanceAction where
  action_id : String
  action_type : GovernanceActionType
  proposer : String
  description : String
  votes_for : Nat
  votes_against : Nat
  status : ActionStatus
  execution_timestamp : Option Int
deriving DecidableEq

/-- `blockchain.rs` `BlockData`. -/
structure BlockData where
  transactions : List Transaction
  entity_metadata : Option EntityMetadata
  constitutional_rules : List Rule
  governance_actions : List GovernanceAction

/-- `blockchain.rs` `Block`. -/
structure Block where
  index : Nat
  timestamp : Int
  previous_hash : String
  hash : String
  data : BlockData
  nonce : Nat
  difficulty : Nat

/-- `blockchain.rs` `AvaBlockchain` state. -/
structure AvaBlockchain where
  chain : List Block
  pending_transactions : List Transaction
  entities : List (String × EntityMetadata)
  genesis_created : Bool

/-- `AvaBlockchain::new`. -/
def AvaBlockchain.new : AvaBlockchain :=
  { chain := [], pending_transactions := [], entities := [], genesis_created := false }

/-- The external crates the ledger leans on: SHA-256 (hex digest of a
string) and serde serialization of block payloads and entity metadata.
Their needed properties (digest length, collision-freedom) enter theorems
as hypotheses on this record. -/
structure HashModel where
  sha256hex : String → String
  serBlockData : BlockData → String
  serEntity : EntityMetadata → Json

/-- `"0".repeat(n)`: the proof-of-work target string. -/
def hexZeros (n : Nat) : String := String.mk (List.replicate n '0')

/-- Character-list pattern-matching kernel of `str::starts_with`. -/
def listPre : List Char → List Char → Bool
  | [], _ => true
  | _ :: _, [] => false
  | a :: as, b :: bs => a == b && listPre as bs

/-- `hash.starts_with(target)`. -/
def strStartsWith (s target : String) : Bool := listPre target.data s.data

/-- `AvaBlockchain::calculate_hash`: SHA-256 hex digest of the format
concatenation of index, timestamp, previous hash, serialized payload,
nonce and difficulty (the stored `hash` field is not part of the preimage). -/
def calculate_hash (m : HashModel) (b : Block) : String :=
  m.sha256hex (toString b.index ++ toString b.timestamp ++ b.previous_hash
    ++ m.serBlockData b.data ++ toString b.nonce ++ toString b.difficulty)

/-- `AvaBlockchain::mine_block` with explicit fuel: try successive nonces
starting at the block current nonce until the hash meets the target; the
Rust loop is unbounded, so fuel exhaustion returns `none` (no result), never
a wrong result.  On success, returns the satisfying nonce and hash. -/
def mineFrom (m : HashModel) : Nat → Block → Option (Nat × String)
  | 0, _ => none
  | fuel + 1, b =>
      let h := calculate_hash m b
      if strStartsWith h (hexZeros b.difficulty) then some (b.nonce, h)
      else mineFrom m fuel { b with nonce := b.nonce + 1 }

/-- The Artifact Virtual Intelligence entity record built by
`create_dual_genesis` (Genesis Block 0). -/
def avMetadata (now : Int) : EntityMetadata :=
  { name := "Artifact Virtual Intelligence"
  , entity_type := EntityType.ParentOrganization
  , genesis_timestamp := now
  , description := "The foundational artificial intelligence system that gives birth to all subsequent intelligence modules and constitutional governance"
  , maintainers := ["genesis@artifactvirtualintelligence.com"]
  , capabilities :=
      [ "AI System Architecture", "Intelligence Module Creation"
      , "Constitutional AI Governance", "Multi-Agent Coordination"
      , "Democratic AI Decision Making", "Transparent AI Operations" ]
  , vision_statement := "To create the foundational artificial intelligence system with constitutional governance that ensures transparent, accountable, and democratic AI operations"
  , parent_entity := none
  , child_entities := ["AVA"]
  , constitutional_constraints :=
      [Rule.GenesisReferenceRequired, Rule.ConstitutionalAmendment] }

/-- The AVA entity record built by `create_dual_genesis` (Genesis Block 1). -/
def avaMetadata (now : Int) : EntityMetadata :=
  { name := "AVA"
  , entity_type := EntityType.IntelligenceModule
  , genesis_timestamp := now
  , description := "Constitutional AI agent that serves as the primary intelligence module within Artifact Virtual Intelligence, governing all AI operations with democratic principles"
  , maintainers := ["ava@artifactvirtualintelligence.com"]
  , capabilities :=
      [ "Constitutional AI Governance", "Multi-Container AI Orchestration"
      , "Democratic AI Decision Making", "AI Ethics and Compliance"
      , "Adaptive AI Learning", "Secure AI Operations", "Transparent AI Auditing" ]
  , vision_statement := "To provide constitutional intelligence that governs all AI operations within Artifact Virtual Intelligence with transparency, accountability, and democratic principles"
  , parent_entity := some "Artifact Virtual Intelligence"
  , child_entities :=
      [ "ava-core", "memory-core", "perception-layer", "action-layer", "vault", "evolver" ]
  , constitutional_constraints :=
      [ Rule.ArtifactVirtualIntelligenceApproval
      , Rule.VotingQuorum (f32round (Rat.divInt 67 100))
      , Rule.ConsensusRequired ["ava-core", "memory-core"] ] }

/-- The unsealed Genesis Block 0 (Artifact Virtual Intelligence) of
`create_dual_genesis`. -/
def genesisBlockAV (m : HashModel) (now : Int) : Block :=
  { index := 0
  , timestamp := now
  , previous_hash := "0"
  , hash := ""
  , data :=
      { transactions :=
          [ { id := "genesis_artifact_virtual_intelligence"
            , transaction_type := TransactionType.GenesisCreation
            , sender := "system"
            , recipient := none
            , data := m.serEntity (avMetadata now)
            , timestamp := now
            , signature := "genesis_signature_avi"
            , constitutional_validation := true } ]
      , entity_metadata := some (avMetadata now)
      , constitutional_rules :=
          [Rule.GenesisReferenceRequired, Rule.ArtifactVirtualIntelligenceApproval]
      , governance_actions := [] }
  , nonce := 0
  , difficulty := 1 }

/-- The unsealed Genesis Block 1 (AVA) of `create_dual_genesis`
(`previous_hash` is set after mining the AV block). -/
def genesisBlockAVA (m : HashModel) (now : Int) : Block :=
  { index := 1
  , timestamp := now
  , previous_hash := ""
  , hash := ""
  , data :=
      { transactions :=
          [ { id := "genesis_ava"
            , transaction_type := TransactionType.GenesisCreation
            , sender := "Artifact Virtual Intelligence"
            , recipient := some "AVA"
            , data := m.serEntity (avaMetadata now)
            , timestamp := now
            , signature := "genesis_signature_ava"
            , constitutional_validation := true } ]
      , entity_metadata := some (avaMetadata now)
      , constitutional_rules :=
          [ Rule.ArtifactVirtualIntelligenceApproval
          , Rule.VotingQuorum (f32round (Rat.divInt 67 100))
          , Rule.ConsensusRequired ["ava-core"] ]
      , governance_actions := [] }
  , nonce := 0
  , difficulty := 1 }

/-- `AvaBlockchain::create_dual_genesis`: bail out if genesis was created,
otherwise mine and push the two genesis blocks (block 1 linking to block 0
through its freshly mined hash) and register both entities.  `none` means
a mining loop did not finish within the fuel. -/
def AvaBlockchain.create_dual_genesis (m : HashModel) (now : Int) (fuel : Nat)
    (s : AvaBlockchain) : Option (AvaBlockchain × Except String Unit) :=
  if s.genesis_created then some (s, Except.error "Genesis blocks already created")
  else
    match mineFrom m fuel (genesisBlockAV m now) with
    | none => none
    | some (n0, h0) =>
        let av_block := { genesisBlockAV m now with nonce := n0, hash := h0 }
        match mineFrom m fuel { genesisBlockAVA m now with previous_hash := h0 } with
        | none => none
        | some (n1, h1) =>
            let ava_block :=
              { genesisBlockAVA m now with previous_hash := h0, nonce := n1, hash := h1 }
            some
              ( { s with
                    chain := s.chain ++ [av_block, ava_block]
                  , entities :=
                      aupsert "AVA" (avaMetadata now)
                        (aupsert "Artifact Virtual Intelligence" (avMetadata now) s.entities)
                  , genesis_created := true }
              , Except.ok () )

/-- `AvaBlockchain::has_approval_from_parent`. -/
def AvaBlockchain.has_approval_from_parent (s : AvaBlockchain)
    (entity_name parent_name : String) : Bool :=
  match alookup entity_name s.entities with
  | some entity => entity.parent_entity == some parent_name
  | none => false

/-- The constraint loop of `AvaBlockchain::validate_transaction`: the first
violated rule returns its error, other rule kinds are no-ops. -/
def AvaBlockchain.check_constraints (s : AvaBlockchain) (tx : Transaction) :
    List Rule → Except String Unit
  | [] => Except.ok ()
  | r :: rest =>
      match r with
      | Rule.ArtifactVirtualIntelligenceApproval =>
          if tx.sender != "Artifact Virtual Intelligence"
              && !(s.has_approval_from_parent tx.sender "Artifact Virtual Intelligence") then
            Except.error "Requires Artifact Virtual Intelligence approval"
          else s.check_constraints tx rest
      | Rule.VotingQuorum _ =>
          if !tx.constitutional_validation then Except.error "Voting quorum not met"
          else s.check_constraints tx rest
      | _ => s.check_constraints tx rest

/-- `AvaBlockchain::validate_transaction`: empty id is an error; a sender
registered as an entity is checked against its attached constraints; an
unknown sender passes. -/
def AvaBlockchain.validate_transaction (s : AvaBlockchain) (tx : Transaction) :
    Except String Bool :=
  if tx.id = "" then Except.error "Transaction ID cannot be empty"
  else
    match alookup tx.sender s.entities with
    | some entity =>
        match s.check_constraints tx entity.constitutional_constraints with
        | Except.error msg => Except.error msg
        | Except.ok _ => Except.ok true
    | none => Except.ok true

/-- `AvaBlockchain::add_transaction`. -/
def AvaBlockchain.add_transaction (s : AvaBlockchain) (tx : Transaction) :
    AvaBlockchain × Except String Unit :=
  if !s.genesis_created then (s, Except.error "Genesis blocks must be created first")
  else
    match s.validate_transaction tx with
    | Except.error msg => (s, Except.error msg)
    | Except.ok true =>
        ({ s with pending_transactions := s.pending_transactions ++ [tx] }, Except.ok ())
    | Except.ok false => (s, Except.error "Transaction validation failed")

/-- `AvaBlockchain::create_block`: refuse an empty pending pool, build the
next block over the previous one, mine it, append it, and clear the pool
only after the successful append.  `none` is fuel exhaustion of the mining
loop. -/
def AvaBlockchain.create_block (m : HashModel) (now : Int) (fuel : Nat)
    (s : AvaBlockchain) : Option (AvaBlockchain × Except String Block) :=
  if s.pending_transactions.isEmpty then some (s, Except.error "No pending transactions")
  else
    match s.chain.getLast? with
    | none => some (s, Except.error "No previous block found")
    | some previous_block =>
        let new_block : Block :=
          { index := previous_block.index + 1
          , timestamp := now
          , previous_hash := previous_block.hash
          , hash := ""
          , data :=
              { transactions := s.pending_transactions
              , entity_metadata := none
              , constitutional_rules := []
              , governance_actions := [] }
          , nonce := 0
          , difficulty := 2 }
        match mineFrom m fuel new_block with
        | none => none
        | some (n, h) =>
            let b := { new_block with nonce := n, hash := h }
            some
              ( { s with chain := s.chain ++ [b], pending_transactions := [] }
              , Except.ok b )

/-- The verification loop of `AvaBlockchain::is_chain_valid`, carrying the
previous block: each current block must hash to its stored hash and link to
the previous stored hash. -/
def chainValidFrom (m : HashModel) : Block → List Block → Bool
  | _, [] => true
  | prev, cur :: rest =>
      (cur.hash == calculate_hash m cur) && (cur.previous_hash == prev.hash)
        && chainValidFrom m cur rest

/-- `AvaBlockchain::is_chain_valid`: the loop runs over indices `1..len`,
so block 0 is only consulted through its stored `hash` field. -/
def AvaBlockchain.is_chain_valid (m : HashModel) (s : AvaBlockchain) : Bool :=
  match s.chain with
  | [] => true
  | b0 :: rest => chainValidFrom m b0 rest

/-- Replace the payload (`data` field) of the block at position `i`. -/
def setBlockData : List Block → Nat → BlockData → List Block
  | [], _, _ => []
  | b :: t, 0, d => { b with data := d } :: t
  | b :: t, i + 1, d => b :: setBlockData t i d

/-- Mutate the stored payload of chain block `i` after append. -/
def mutate_block_data (s : AvaBlockchain) (i : Nat) (d : BlockData) : AvaBlockchain :=
  { s with chain := setBlockData s.chain i d }

/-! ### Genesis builder (`genesis.rs`) -/

/-- `genesis.rs` `EntityConfig`. -/
structure EntityConfig where
  name : String
  description : String
  maintainers : List String
  capabilities : List String
  vision_statement : String
  constitutional_constraints : List Rule
deriving DecidableEq

/-- `genesis.rs` `GenesisConfig` (the state of a `GenesisBuilder`). -/
structure GenesisConfig where
  artifact_virtual_config : EntityConfig
  ava_config : EntityConfig
  initial_difficulty : Nat
  genesis_timestamp : Int
deriving DecidableEq

/-- `GenesisBuilder::create_genesis_signature`. -/
def create_genesis_signature (m : HashModel) (c : GenesisConfig)
    (entity : String) (block_index : Nat) : String :=
  "genesis_" ++ m.sha256hex ("genesis_" ++ entity ++ "_" ++ toString block_index
    ++ "_" ++ toString c.genesis_timestamp ++ "_" ++ "constitutional_intelligence")

/-- `GenesisBuilder::build_artifact_virtual_genesis` (Block 0). -/
def build_artifact_virtual_genesis (m : HashModel) (c : GenesisConfig) : Block :=
  let entity_metadata : EntityMetadata :=
    { name := c.artifact_virtual_config.name
    , entity_type := EntityType.ParentOrganization
    , genesis_timestamp := c.genesis_timestamp
    , description := c.artifact_virtual_config.description
    , maintainers := c.artifact_virtual_config.maintainers
    , capabilities := c.artifact_virtual_config.capabilities
    , vision_statement := c.artifact_virtual_config.vision_statement
    , parent_entity := none
    , child_entities := ["AVA"]
    , constitutional_constraints := c.artifact_virtual_config.constitutional_constraints }
  { index := 0
  , timestamp := c.genesis_timestamp
  , previous_hash := "0000000000000000000000000000000000000000000000000000000000000000"
  , hash := ""
  , data :=
      { transactions :=
          [ { id := "genesis_artifact_virtual_0"
            , transaction_type := TransactionType.GenesisCreation
            , sender := "SYSTEM_GENESIS"
            , recipient := some "Artifact Virtual"
            , data := m.serEntity entity_metadata
            , timestamp := c.genesis_timestamp
            , signature := create_genesis_signature m c "artifact_virtual" 0
            , constitutional_validation := true } ]
      , entity_metadata := some entity_metadata
      , constitutional_rules :=
          [ Rule.GenesisReferenceRequired
          , Rule.ArtifactVirtualIntelligenceApproval
          , Rule.ConstitutionalAmendment ]
      , governance_actions := [] }
  , nonce := 0
  , difficulty := c.initial_difficulty }

/-- `GenesisBuilder::build_ava_genesis` (Block 1, given the root hash). -/
def build_ava_genesis (m : HashModel) (c : GenesisConfig)
    (artifact_virtual_hash : String) : Block :=
  let entity_metadata : EntityMetadata :=
    { name := c.ava_config.name
    , entity_type := EntityType.IntelligenceModule
    , genesis_timestamp := c.genesis_timestamp
    , description := c.ava_config.description
    , maintainers := c.ava_config.maintainers
    , capabilities := c.ava_config.capabilities
    , vision_statement := c.ava_config.vision_statement
    , parent_entity := some "Artifact Virtual"
    , child_entities :=
        [ "ava-core", "memory-core", "perception-layer", "action-layer", "vault", "evolver" ]
    , constitutional_constraints := c.ava_config.constitutional_constraints }
  { index := 1
  , timestamp := c.genesis_timestamp
  , previous_hash := artifact_virtual_hash
  , hash := ""
  , data :=
      { transactions :=
          [ { id := "genesis_ava_1"
            , transaction_type := TransactionType.GenesisCreation
            , sender := "Artifact Virtual"
            , recipient := some "AVA"
            , data := m.serEntity entity_metadata
            , timestamp := c.genesis_timestamp
            , signature := create_genesis_signature m c "ava" 1
            , constitutional_validation := true } ]
      , entity_metadata := some entity_metadata
      , constitutional_rules :=
          [ Rule.ArtifactVirtualIntelligenceApproval
          , Rule.VotingQuorum (f32round (Rat.divInt 67 100))
          , Rule.ConsensusRequired ["ava-core", "memory-core"] ]
      , governance_actions := [] }
  , nonce := 0
  , difficulty := c.initial_difficulty }

/-- `GenesisBuilder::calculate_temporary_hash`: like `calculate_hash` but
without the nonce in the preimage (pre-mining linkage hash). -/
def calculate_temporary_hash (m : HashModel) (b : Block) : String :=
  m.sha256hex (toString b.index ++ toString b.timestamp ++ b.previous_hash
    ++ m.serBlockData b.data ++ toString b.difficulty)

/-- `GenesisBuilder::build_dual_genesis`. -/
def build_dual_genesis (m : HashModel) (c : GenesisConfig) : Block × Block :=
  let artifact_virtual_block := build_artifact_virtual_genesis m c
  let av_hash := calculate_temporary_hash m artifact_virtual_block
  let ava_block := build_ava_genesis m c av_hash
  (artifact_virtual_block, ava_block)

/-- `GenesisBuilder::validate_config`. -/
def validate_config (c : GenesisConfig) : Except String Unit :=
  if c.artifact_virtual_config.name = "" then
    Except.error "Artifact Virtual name cannot be empty"
  else if c.artifact_virtual_config.maintainers.isEmpty then
    Except.error "Artifact Virtual must have at least one maintainer"
  else if c.ava_config.name = "" then
    Except.error "AVA name cannot be empty"
  else if c.ava_config.maintainers.isEmpty then
    Except.error "AVA must have at least one maintainer"
  else if c.initial_difficulty = 0 then
    Except.error "Initial difficulty must be greater than 0"
  else Except.ok ()

/-! ### Concrete instances for the ledger claims -/

/-- A concrete, injective stand-in hash whose digests always meet the
difficulty-2 target, so mining terminates at the first nonce; used to
instantiate witnesses and counterexamples. -/
def mC : HashModel :=
  { sha256hex := fun s => "00" ++ s
  , serBlockData := fun d => toString d.transactions.length
  , serEntity := fun _ => Json.null }

/-- An empty replacement payload (its serialization under `mC` differs from
any one-transaction payload). -/
def emptyPayload : BlockData :=
  { transactions := [], entity_metadata := none
  , constitutional_rules := [], governance_actions := [] }

/-- The ledger state after a successful dual genesis under `mC` at time 0. -/
def genState : AvaBlockchain :=
  ((AvaBlockchain.new.create_dual_genesis mC 0 1).map Prod.fst).getD AvaBlockchain.new

/-- A well-formed transaction from a sender that is not a registered
entity. -/
def txUnknownSender : Transaction :=
  { id := "tx_unknown_1", transaction_type := TransactionType.EntityRegistration
  , sender := "nobody-registered", recipient := none, data := Json.str "payload"
  , timestamp := 3, signature := "sig_u", constitutional_validation := true }

/-- A transaction with an empty id (claims C7/C10). -/
def txEmptyId : Transaction :=
  { id := "", transaction_type := TransactionType.EntityRegistration
  , sender := "nobody-registered", recipient := none, data := Json.str "payload"
  , timestamp := 3, signature := "sig_e", constitutional_validation := true }

/-- A small sealed block used as chain head in the C6 witness. -/
def blkW : Block :=
  { index := 1, timestamp := 7, previous_hash := "0", hash := "x"
  , data := emptyPayload, nonce := 0, difficulty := 1 }

/-- The C6 witness pre-state: one-block chain, one pending transaction. -/
def sW : AvaBlockchain :=
  { chain := [blkW], pending_transactions := [txUnknownSender]
  , entities := [], genesis_created := true }

/-- The block `create_block` seals over `sW` under `mC` at time 7 (its hash
is the `mC` digest of the concatenated preimage). -/
def bW2 : Block :=
  { index := 2, timestamp := 7, previous_hash := "x", hash := "0027x102"
  , data :=
      { transactions := [txUnknownSender], entity_metadata := none
      , constitutional_rules := [], governance_actions := [] }
  , nonce := 0, difficulty := 2 }

/-- The C6 witness post-state: `bW2` appended, pool cleared. -/
def sW2 : AvaBlockchain :=
  { chain := [blkW, bW2], pending_transactions := []
  , entities := [], genesis_created := true }

/-- The second (AVA) genesis block of `genState` as a value (used as the
concrete mutated block of the C3 witness). -/
def genBlock1 : Block := (genState.chain.getLast?).getD blkW

/-- A tiny valid genesis configuration for the C9 witness. -/
def cW : GenesisConfig :=
  { artifact_virtual_config :=
      { name := "Artifact Virtual", description := "root org"
      , maintainers := ["root@example.com"], capabilities := ["governing"]
      , vision_statement := "vision"
      , constitutional_constraints := [Rule.GenesisReferenceRequired] }
  , ava_config :=
      { name := "AVA", description := "module"
      , maintainers := ["ava@example.com"], capabilities := ["governing"]
      , vision_statement := "vision"
      , constitutional_constraints := [Rule.ArtifactVirtualIntelligenceApproval] }
  , initial_difficulty := 1
  , genesis_timestamp := 0 }

/-- A length-64 constant digest function for the C9 witness. -/
def hash64 : HashModel :=
  { sha256hex := fun _ => hexZeros 64
  , serBlockData := fun d => toString d.transactions.length
  , serEntity := fun _ => Json.null }

/-! ## Theorems -/

theorem alookup_aupsert {α : Type} (k : String) (v : α) :
    ∀ l : List (String × α), alookup k (aupsert k v l) = some v := by
  intro l
  induction l with
  | nil => simp [aupsert, alookup]
  | cons hd tl ih =>
      obtain ⟨k2, v2⟩ := hd
      by_cases h : k2 = k
      · simp [aupsert, alookup, h]
      · simp [aupsert, alookup, h, ih]

theorem alookup_amodify {α : Type} (k : String) (f : α → α) :
    ∀ l : List (String × α), alookup k (amodify k f l) = (alookup k l).map f := by
  intro l
  induction l with
  | nil => simp [amodify, alookup]
  | cons hd tl ih =>
      obtain ⟨k2, v2⟩ := hd
      by_cases h : k2 = k
      · simp [amodify, alookup, h]
      · simp [amodify, alookup, h, ih]

theorem length_aupsert_of_mem {α : Type} (k : String) (v : α) :
    ∀ l : List (String × α), alookup k l ≠ none →
      (aupsert k v l).length = l.length := by
  intro l
  induction l with
  | nil => intro h; simp [alookup] at h
  | cons hd tl ih =>
      intro h
      obtain ⟨k2, v2⟩ := hd
      by_cases hk : k2 = k
      · simp [aupsert, hk]
      · simp only [alookup, if_neg hk] at h
        simp [aupsert, hk, ih h]

theorem apply_rule_eq_outcome (e : ConstitutionalEngine) (rule : GovernanceRule)
    (tx : Transaction) : e.apply_rule rule tx = Except.ok (ruleOutcome e rule tx) := by
  cases rule with
  | mk rid rty rdesc rlvl rca rcb rparams ract =>
      cases rty <;>
        simp only [ConstitutionalEngine.apply_rule, ruleOutcome] <;>
        (repeat' split) <;> rfl

theorem validateLoop_eq (e : ConstitutionalEngine) (tx : Transaction) :
    ∀ (rs : List GovernanceRule) (vs ws : List String),
      validateLoop e tx rs vs ws =
        Except.ok (assembleResult (vs ++ blockingMsgs e tx rs) (ws ++ warningMsgs e tx rs)) := by
  intro rs
  induction rs with
  | nil =>
      intro vs ws
      simp only [validateLoop, blockingMsgs, warningMsgs, assembleResult,
        List.filterMap_nil, List.append_nil]
      (repeat' split) <;> rfl
  | cons r rest ih =>
      intro vs ws
      by_cases hact : r.active
      · have hact' : (r.active = false) = False := by simp [hact]
        simp only [validateLoop, hact', if_false, apply_rule_eq_outcome]
        cases hout : ruleOutcome e r tx with
        | None =>
            simp only [ih]
            simp [blockingMsgs, warningMsgs, hact, hout, List.filterMap_cons]
        | Warning m =>
            simp only [ih]
            simp [blockingMsgs, warningMsgs, hact, hout, List.filterMap_cons, List.append_assoc]
        | Blocking m =>
            simp only [ih]
            simp [blockingMsgs, warningMsgs, hact, hout, List.filterMap_cons, List.append_assoc]
      · have hact' : r.active = false := by simpa using hact
        simp only [validateLoop, hact', if_true, ih]
        simp [blockingMsgs, warningMsgs, hact', List.filterMap_cons]

theorem except_map_unit (r : Except String Unit) : r.map (fun _ => ()) = r := by
  cases r with
  | error msg => rfl
  | ok u => cases u; rfl

theorem resolution_update (now : Int) (e : ConstitutionalEngine) (pid : String)
    (p : Proposal) (hl : alookup pid e.active_proposals = some p) :
    ConstitutionalEngine.check_proposal_resolution now e pid = (e, Except.ok ()) ∨
    ∃ st : ProposalStatus,
      ConstitutionalEngine.check_proposal_resolution now e pid =
        ( { e with
              active_proposals := amodify pid (fun q => { q with status := st }) e.active_proposals
            , voting_records := aupsert pid (resolvedRecord pid p st) e.voting_records
            , constitutional_history := e.constitutional_history ++ [resolvedEvent now pid st] }
        , Except.ok () ) := by
  simp only [ConstitutionalEngine.check_proposal_resolution, hl]
  cases hst : resolutionStatus now p with
  | none => exact Or.inl rfl
  | some st => exact Or.inr ⟨st, rfl⟩

/-- C4: `validate_transaction` evaluates every active rule with no
short-circuit; the result is `Rejected` with the full ordered list of all
blocking messages when any rule blocks, else `ApprovedWithWarnings` with all
warning messages when any rule warns, else `Approved` (`assembleResult`
states exactly this selection). -/
theorem c4_validate_collects_all_rule_outcomes (e : ConstitutionalEngine) (tx : Transaction) :
    e.validate_transaction tx =
      Except.ok (assembleResult (blockingMsgs e tx e.rules) (warningMsgs e tx e.rules)) := by
  simpa [ConstitutionalEngine.validate_transaction] using validateLoop_eq e tx e.rules [] []

/-- C1 (code bug): over the seeded foundational rules, a
constitutional-amendment or emergency-action transaction from a non-root
sender is NOT rejected with the root-approval blocking message — it is
Approved, because the seeded rule `artifact_virtual_supremacy` has kind
`ConstitutionalRule` while `apply_rule` only runs the root-approval check
for `AuthorizationRule`-kind rules bearing that id. -/
theorem c1_supremacy_check_dead_on_seeded_rules :
    (ConstitutionalEngine.new 0).requires_artifact_virtual_approval txAmendment = true ∧
    (ConstitutionalEngine.new 0).requires_artifact_virtual_approval txEmergency = true ∧
    txAmendment.sender ≠ "Artifact Virtual" ∧
    txEmergency.sender ≠ "Artifact Virtual" ∧
    (ConstitutionalEngine.new 0).validate_transaction txAmendment
      = Except.ok ValidationResult.Approved ∧
    (ConstitutionalEngine.new 0).validate_transaction txEmergency
      = Except.ok ValidationResult.Approved :=
  ⟨rfl, rfl, by decide, by decide, rfl, rfl⟩

/-- C2 counterexample: with required majority 0.8 and 4 For, 1 Against votes
by distinct voters (quorum met), the proposal resolves to Approved, not
Rejected as claimed — the approval rate 4/5 equals the 0.8 threshold
exactly in `f32` and the comparison is `>=`. -/
theorem c2_counterexample_exact_majority_approves :
    statusOf c2run2 "p1" = some ProposalStatus.Approved ∧
    statusOf c2run2 "p1" ≠ some ProposalStatus.Rejected := by
  constructor
  · decide
  · decide

/-- C2 (amended): with quorum 0.5, majority 0.67 and 10 eligible voters,
5 For votes resolve to Approved; with majority 0.8, 4 For and 1 Against
resolve to Approved (approval rate 0.8 meets the inclusive `>=` threshold);
and with only 2 votes cast before the deadline the proposal stays
VotingActive until a vote attempt after the deadline fails and leaves it
QuorumNotMet. -/
theorem c2_amended_voting_scenarios :
    statusOf c2run1 "p1" = some ProposalStatus.Approved ∧
    statusOf c2run2 "p1" = some ProposalStatus.Approved ∧
    statusOf c2run3a "p1" = some ProposalStatus.VotingActive ∧
    c2run3.2 = Except.error "Voting deadline has passed" ∧
    statusOf c2run3.1 "p1" = some ProposalStatus.QuorumNotMet := by
  refine ⟨by decide, by decide, by decide, rfl, by decide⟩

/-- C5 counterexample: a vote cast after the deadline flips the proposal out
of VotingActive to QuorumNotMet, yet no VotingRecord is written, no
ProposalResolved event is appended (the history stays empty), and the vote
is not recorded. -/
theorem c5_counterexample_deadline_transition_writes_nothing :
    statusOf c5lateCast.1 "p1" = some ProposalStatus.QuorumNotMet ∧
    alookup "p1" c5lateCast.1.voting_records = none ∧
    c5lateCast.1.constitutional_history.map (fun ev => ev.event_type) = [] ∧
    (alookup "p1" c5lateCast.1.active_proposals).map (fun p => p.votes.length) = some 0 := by
  refine ⟨by decide, by decide, rfl, rfl⟩

/-- C5 (amended): every status transition performed by
`check_proposal_resolution` is accompanied by a VotingRecord snapshot keyed
by the proposal id and an appended ProposalResolved event; but the
deadline-expiry transition inside `cast_vote` only rewrites the status and
returns an error, writing no record and appending no event. -/
theorem c5_amended_resolution_transitions_write_records :
    (∀ (now : Int) (e : ConstitutionalEngine) (pid : String) (p : Proposal),
      alookup pid e.active_proposals = some p →
      ∀ p', alookup pid
          (ConstitutionalEngine.check_proposal_resolution now e pid).1.active_proposals = some p' →
        p'.status ≠ p.status →
        (∃ rec, alookup pid
            (ConstitutionalEngine.check_proposal_resolution now e pid).1.voting_records = some rec ∧
          rec.proposal_id = pid) ∧
        (∃ ev, (ConstitutionalEngine.check_proposal_resolution now e pid).1.constitutional_history
            = e.constitutional_history ++ [ev] ∧
          ev.event_type = EventType.ProposalResolved)) ∧
    (∀ (now : Int) (e : ConstitutionalEngine) (pid : String) (p : Proposal) (v : Vote),
      alookup pid e.active_proposals = some p →
      p.status = ProposalStatus.VotingActive →
      now > p.voting_deadline →
      ConstitutionalEngine.cast_vote now e pid v =
        ( { e with active_proposals :=
              (amodify pid (fun q => { q with status := ProposalStatus.QuorumNotMet })
                e.active_proposals) }
        , Except.error "Voting deadline has passed" )) := by
  constructor
  · intro now e pid p hl p' hp' hne
    rcases resolution_update now e pid p hl with h | ⟨st, h⟩
    · rw [h] at hp'
      have hpp : p = p' := Option.some.inj (hl.symm.trans hp')
      exact absurd (congrArg Proposal.status hpp.symm) hne
    · rw [h]
      refine ⟨⟨resolvedRecord pid p st, ?_, rfl⟩, ⟨resolvedEvent now pid st, rfl, rfl⟩⟩
      exact alookup_aupsert pid (resolvedRecord pid p st) e.voting_records
  · intro now e pid p v hl hact hdl
    simp only [ConstitutionalEngine.cast_vote, hl]
    rw [if_neg (fun hcon => hcon hact), if_pos hdl]

/-- C8: `cast_vote` fails on an unknown proposal; fails when the status is
not VotingActive; on a passed deadline flips the status to QuorumNotMet and
fails without recording the vote; otherwise upserts the vote keyed by voter
id, appends a VoteCast event, and runs the resolution check; and the upsert
overwrites a prior vote by the same voter, keeping the distinct-voter count. -/
theorem c8_cast_vote_spec :
    (∀ (now : Int) (e : ConstitutionalEngine) (pid : String) (v : Vote),
      alookup pid e.active_proposals = none →
      ConstitutionalEngine.cast_vote now e pid v = (e, Except.error "Proposal not found")) ∧
    (∀ (now : Int) (e : ConstitutionalEngine) (pid : String) (p : Proposal) (v : Vote),
      alookup pid e.active_proposals = some p →
      p.status ≠ ProposalStatus.VotingActive →
      ConstitutionalEngine.cast_vote now e pid v
        = (e, Except.error "Proposal is not accepting votes")) ∧
    (∀ (now : Int) (e : ConstitutionalEngine) (pid : String) (p : Proposal) (v : Vote),
      alookup pid e.active_proposals = some p →
      p.status = ProposalStatus.VotingActive →
      now > p.voting_deadline →
      ConstitutionalEngine.cast_vote now e pid v =
        ( { e with active_proposals :=
              (amodify pid (fun q => { q with status := ProposalStatus.QuorumNotMet })
                e.active_proposals) }
        , Except.error "Voting deadline has passed" ) ∧
      ∀ p', alookup pid (ConstitutionalEngine.cast_vote now e pid v).1.active_proposals = some p' →
        p'.votes = p.votes ∧ p'.status = ProposalStatus.QuorumNotMet) ∧
    (∀ (now : Int) (e : ConstitutionalEngine) (pid : String) (p : Proposal) (v : Vote),
      alookup pid e.active_proposals = some p →
      p.status = ProposalStatus.VotingActive →
      ¬ now > p.voting_deadline →
      ConstitutionalEngine.cast_vote now e pid v =
        ConstitutionalEngine.check_proposal_resolution now
          { e with
              active_proposals :=
                (amodify pid (fun q => { q with votes := aupsert v.voter v q.votes })
                  e.active_proposals)
            , constitutional_history := e.constitutional_history ++ [voteCastEvent now pid v] }
          pid) ∧
    (∀ (v : Vote) (votes : List (String × Vote)),
      alookup v.voter votes ≠ none →
      (aupsert v.voter v votes).length = votes.length ∧
      alookup v.voter (aupsert v.voter v votes) = some v) := by
  refine ⟨?_, ?_, ?_, ?_, ?_⟩
  · intro now e pid v hl
    simp [ConstitutionalEngine.cast_vote, hl]
  · intro now e pid p v hl hact
    simp only [ConstitutionalEngine.cast_vote, hl]
    rw [if_pos hact]
  · intro now e pid p v hl hact hdl
    have heq : ConstitutionalEngine.cast_vote now e pid v =
        ( { e with active_proposals :=
              (amodify pid (fun q => { q with status := ProposalStatus.QuorumNotMet })
                e.active_proposals) }
        , Except.error "Voting deadline has passed" ) := by
      simp only [ConstitutionalEngine.cast_vote, hl]
      rw [if_neg (fun hcon => hcon hact), if_pos hdl]
    refine ⟨heq, ?_⟩
    intro p' hp'
    rw [heq] at hp'
    rw [alookup_amodify, hl] at hp'
    cases Option.some.inj hp'
    exact ⟨rfl, rfl⟩
  · intro now e pid p v hl hact hdl
    simp only [ConstitutionalEngine.cast_vote, hl]
    rw [if_neg (fun hcon => hcon hact), if_neg hdl, except_map_unit]
    rfl
  · intro v votes hmem
    exact ⟨length_aupsert_of_mem v.voter v votes hmem,
      alookup_aupsert v.voter v votes⟩

theorem hexZeros_length (n : Nat) : (hexZeros n).length = n := by
  simp [hexZeros, String.length]

theorem mineFrom_spec (m : HashModel) :
    ∀ (fuel : Nat) (b : Block) (n : Nat) (h : String),
      mineFrom m fuel b = some (n, h) →
      h = calculate_hash m { b with nonce := n } ∧
      strStartsWith h (hexZeros b.difficulty) = true := by
  intro fuel
  induction fuel with
  | zero => intro b n h hmine; simp [mineFrom] at hmine
  | succ f ih =>
      intro b n h hmine
      simp only [mineFrom] at hmine
      split at hmine
      · rename_i hstart
        simp only [Option.some.injEq, Prod.mk.injEq] at hmine
        obtain ⟨hn, hh⟩ := hmine
        subst hn; subst hh
        exact ⟨rfl, hstart⟩
      · exact ih { b with nonce := b.nonce + 1 } n h hmine

theorem getLast?_cons_getLastD {α : Type} (c0 : α) (rest : List α) :
    (c0 :: rest).getLast? = some (rest.getLastD c0) := by
  simp [List.getLast?_cons, List.getLastD_eq_getLast?]

theorem chainValidFrom_append (m : HashModel) (b : Block) :
    ∀ (l : List Block) (prev : Block),
      chainValidFrom m prev (l ++ [b]) =
        (chainValidFrom m prev l &&
          ((b.hash == calculate_hash m b) && (b.previous_hash == (l.getLastD prev).hash))) := by
  intro l
  induction l with
  | nil => intro prev; simp [chainValidFrom, List.getLastD]
  | cons c t ih =>
      intro prev
      simp [chainValidFrom, ih, List.getLastD_eq_getLast?, List.getLast?_cons,
        Bool.and_assoc]

theorem chainValidFrom_get (m : HashModel) :
    ∀ (l : List Block) (prev : Block), chainValidFrom m prev l = true →
      ∀ (i : Nat) (hi : i < l.length),
        (l.get ⟨i, hi⟩).hash = calculate_hash m (l.get ⟨i, hi⟩) := by
  intro l
  induction l with
  | nil => intro prev _ i hi; exact absurd hi (by simp)
  | cons c t ih =>
      intro prev hv i hi
      simp only [chainValidFrom, Bool.and_eq_true, beq_iff_eq] at hv
      obtain ⟨⟨h1, _⟩, h3⟩ := hv
      cases i with
      | zero => exact h1
      | succ j => exact ih c h3 j (by simpa using hi)

theorem chainValidFrom_false_at (m : HashModel) :
    ∀ (l : List Block) (prev : Block) (i : Nat) (hi : i < l.length),
      ((l.get ⟨i, hi⟩).hash == calculate_hash m (l.get ⟨i, hi⟩)) = false →
      chainValidFrom m prev l = false := by
  intro l
  induction l with
  | nil => intro prev i hi; exact absurd hi (by simp)
  | cons c t ih =>
      intro prev i hi hbad
      cases i with
      | zero =>
          simp only [List.get] at hbad
          simp [chainValidFrom, hbad]
      | succ j =>
          have hrec := ih c j (by simpa using hi) (by simpa using hbad)
          simp [chainValidFrom, hrec]

theorem length_setBlockData : ∀ (l : List Block) (i : Nat) (d : BlockData),
    (setBlockData l i d).length = l.length := by
  intro l
  induction l with
  | nil => intro i d; rfl
  | cons b t ih =>
      intro i d
      cases i with
      | zero => rfl
      | succ j => simp [setBlockData, ih]

theorem get_setBlockData_same : ∀ (l : List Block) (i : Nat) (d : BlockData)
    (hi : i < l.length) (hi' : i < (setBlockData l i d).length),
    (setBlockData l i d).get ⟨i, hi'⟩ = { l.get ⟨i, hi⟩ with data := d } := by
  intro l
  induction l with
  | nil => intro i d hi; exact absurd hi (by simp)
  | cons b t ih =>
      intro i d hi hi'
      cases i with
      | zero => rfl
      | succ j =>
          simp only [setBlockData, List.get]
          exact ih j d (by simpa using hi) (by simpa [setBlockData] using hi')

theorem chainValidFrom_congr_prev (m : HashModel) (l : List Block)
    (prev prev' : Block) (h : prev.hash = prev'.hash) :
    chainValidFrom m prev l = chainValidFrom m prev' l := by
  cases l with
  | nil => rfl
  | cons c t => simp [chainValidFrom, h]

theorem strConcatCancel (a1 a2 a3 a5 a6 x y : String)
    (h : a1 ++ a2 ++ a3 ++ x ++ a5 ++ a6 = a1 ++ a2 ++ a3 ++ y ++ a5 ++ a6) : x = y := by
  have hd := congrArg String.data h
  simp only [String.data_append, List.append_assoc] at hd
  have h1 := List.append_cancel_left hd
  have h2 := List.append_cancel_left h1
  have h3 := List.append_cancel_left h2
  have h4 := List.append_cancel_right h3
  cases x; cases y; exact congrArg String.mk h4

theorem mC_inj : Function.Injective mC.sha256hex := by
  intro a b h
  have hd := congrArg String.data h
  simp only [String.data_append] at hd
  have hcancel := List.append_cancel_left hd
  cases a; cases b; exact congrArg String.mk hcancel

theorem create_block_ok (m : HashModel) (now : Int) (fuel : Nat)
    (s s' : AvaBlockchain) (b prev : Block)
    (hlast : s.chain.getLast? = some prev)
    (hres : s.create_block m now fuel = some (s', Except.ok b)) :
    s'.chain = s.chain ++ [b] ∧
    b.index = prev.index + 1 ∧
    b.previous_hash = prev.hash ∧
    b.data.transactions = s.pending_transactions ∧
    b.difficulty = 2 ∧
    b.hash = calculate_hash m b ∧
    strStartsWith b.hash (hexZeros 2) = true ∧
    s'.pending_transactions = [] ∧
    s'.entities = s.entities ∧
    s'.genesis_created = s.genesis_created := by
  unfold AvaBlockchain.create_block at hres
  split at hres
  · simp at hres
  · rw [hlast] at hres
    dsimp only at hres
    split at hres
    · exact absurd hres (by simp)
    · rename_i n h hmine
      simp only [Option.some.injEq, Prod.mk.injEq] at hres
      obtain ⟨hs', hb⟩ := hres
      simp only [Except.ok.injEq] at hb
      subst hb
      subst hs'
      have hspec := mineFrom_spec m fuel _ n h hmine
      exact ⟨rfl, rfl, rfl, rfl, rfl, hspec.1, hspec.2, rfl, rfl, rfl⟩

/-- C10: a transaction with an empty id is always rejected by the Ledger
validation (`validate_transaction` errors), so `add_transaction` fails and
enqueues nothing, in every ledger state, whatever the sender or the
registered entities. -/
theorem c10_empty_id_always_rejected (s : AvaBlockchain) (tx : Transaction)
    (hid : tx.id = "") :
    s.validate_transaction tx = Except.error "Transaction ID cannot be empty" ∧
    (s.add_transaction tx).1 = s ∧
    ∃ msg, (s.add_transaction tx).2 = Except.error msg := by
  have hval : s.validate_transaction tx = Except.error "Transaction ID cannot be empty" := by
    simp [AvaBlockchain.validate_transaction, hid]
  refine ⟨hval, ?_, ?_⟩
  · by_cases hg : s.genesis_created <;>
      simp [AvaBlockchain.add_transaction, hg, hval]
  · by_cases hg : s.genesis_created
    · exact ⟨"Transaction ID cannot be empty",
        by simp [AvaBlockchain.add_transaction, hg, hval]⟩
    · exact ⟨"Genesis blocks must be created first",
        by simp [AvaBlockchain.add_transaction, hg]⟩

/-- Witness for C10: the empty-id transaction on the post-genesis state
`sW` is rejected and the pool is untouched. -/
theorem c10_empty_id_witness :
    txEmptyId.id = "" ∧
    sW.validate_transaction txEmptyId = Except.error "Transaction ID cannot be empty" ∧
    (sW.add_transaction txEmptyId).1 = sW ∧
    ∃ msg, (sW.add_transaction txEmptyId).2 = Except.error msg :=
  ⟨rfl, c10_empty_id_always_rejected sW txEmptyId rfl⟩

/-- C7 counterexample: after genesis, a transaction from an unknown sender
but with an empty id is NOT accepted and NOT enqueued, so the claim as
stated ("every transaction whose sender is not a registered entity is
accepted ... and enqueued") fails on it. -/
theorem c7_counterexample_empty_id_unknown_sender :
    sW.genesis_created = true ∧
    alookup txEmptyId.sender sW.entities = none ∧
    (sW.add_transaction txEmptyId).2 = Except.error "Transaction ID cannot be empty" ∧
    (sW.add_transaction txEmptyId).1.pending_transactions = sW.pending_transactions :=
  ⟨rfl, rfl, rfl, rfl⟩

/-- C7 (amended): before genesis every `add_transaction` fails with the
not-initialized error and enqueues nothing; after genesis, every transaction
with a non-empty id whose sender is not a registered entity passes
validation and is enqueued — absence of a known entity is never itself a
violation. -/
theorem c7_amended_unknown_sender_accepted :
    (∀ (s : AvaBlockchain) (tx : Transaction),
      s.genesis_created = false →
      s.add_transaction tx = (s, Except.error "Genesis blocks must be created first")) ∧
    (∀ (s : AvaBlockchain) (tx : Transaction),
      s.genesis_created = true →
      tx.id ≠ "" →
      alookup tx.sender s.entities = none →
      s.validate_transaction tx = Except.ok true ∧
      s.add_transaction tx =
        ({ s with pending_transactions := s.pending_transactions ++ [tx] }, Except.ok ())) := by
  constructor
  · intro s tx hg
    simp [AvaBlockchain.add_transaction, hg]
  · intro s tx hg hid hlook
    have hval : s.validate_transaction tx = Except.ok true := by
      simp [AvaBlockchain.validate_transaction, hid, hlook]
    exact ⟨hval, by simp [AvaBlockchain.add_transaction, hg, hval]⟩

/-- Witness for C7: a fresh ledger rejects `txUnknownSender` before genesis,
and the post-genesis state `sW` (which does not register its sender) accepts
and enqueues it. -/
theorem c7_amended_witness :
    AvaBlockchain.new.add_transaction txUnknownSender
      = (AvaBlockchain.new, Except.error "Genesis blocks must be created first") ∧
    (sW.validate_transaction txUnknownSender = Except.ok true ∧
      sW.add_transaction txUnknownSender =
        ({ sW with pending_transactions := sW.pending_transactions ++ [txUnknownSender] }
        , Except.ok ())) :=
  ⟨c7_amended_unknown_sender_accepted.1 AvaBlockchain.new txUnknownSender rfl,
    c7_amended_unknown_sender_accepted.2 sW txUnknownSender rfl (by decide) rfl⟩

/-- C9: for every configuration accepted by `validate_config` (and a digest
function of the standard 64-hex-character SHA-256 output length),
`build_dual_genesis` returns blocks with indices 0 and 1, and the second
block links to a 64-character pre-mining hash of the first. -/
theorem c9_build_dual_genesis_shape (m : HashModel) (c : GenesisConfig)
    (hlen : ∀ str, (m.sha256hex str).length = 64)
    (_hcfg : validate_config c = Except.ok ()) :
    (build_dual_genesis m c).1.index = 0 ∧
    (build_dual_genesis m c).2.index = 1 ∧
    (build_dual_genesis m c).2.previous_hash.length = 64 := by
  refine ⟨rfl, rfl, ?_⟩
  simp [build_dual_genesis, build_ava_genesis, calculate_temporary_hash, hlen]

theorem mutation_breaks_validity (m : HashModel) (hinj : Function.Injective m.sha256hex)
    (c0 : Block) (rest : List Block) (j : Nat) (hj : j < rest.length) (d : BlockData)
    (hvalid : chainValidFrom m c0 rest = true)
    (hser : m.serBlockData d ≠ m.serBlockData (rest.get ⟨j, hj⟩).data) :
    chainValidFrom m c0 (setBlockData rest j d) = false := by
  have hj' : j < (setBlockData rest j d).length := by
    rw [length_setBlockData]; exact hj
  have hoh : (rest.get ⟨j, hj⟩).hash = calculate_hash m (rest.get ⟨j, hj⟩) :=
    chainValidFrom_get m rest c0 hvalid j hj
  have hget : (setBlockData rest j d).get ⟨j, hj'⟩ = { rest.get ⟨j, hj⟩ with data := d } :=
    get_setBlockData_same rest j d hj hj'
  apply chainValidFrom_false_at m (setBlockData rest j d) c0 j hj'
  rw [hget]
  rw [beq_eq_false_iff_ne]
  intro hcon
  have hcalc : calculate_hash m (rest.get ⟨j, hj⟩)
      = calculate_hash m { rest.get ⟨j, hj⟩ with data := d } := by
    rw [← hoh]; exact hcon
  have hpre := hinj hcalc
  have hdata := strConcatCancel (toString (rest.get ⟨j, hj⟩).index)
    (toString (rest.get ⟨j, hj⟩).timestamp) ((rest.get ⟨j, hj⟩).previous_hash)
    (toString (rest.get ⟨j, hj⟩).nonce) (toString (rest.get ⟨j, hj⟩).difficulty)
    (m.serBlockData (rest.get ⟨j, hj⟩).data) (m.serBlockData d) hpre
  exact hser hdata.symm

/-- C3 counterexample: after a successful dual genesis (under the concrete
hash model `mC`), replacing block 0's stored payload with a different one
(the transaction count visibly changes) leaves `is_chain_valid` TRUE —
block 0's payload is never re-hashed because verification starts at
index 1. -/
theorem c3_counterexample_block0_mutation_undetected :
    genState.genesis_created = true ∧
    genState.chain.length = 2 ∧
    genState.is_chain_valid mC = true ∧
    (mutate_block_data genState 0 emptyPayload).chain.map
        (fun b => b.data.transactions.length)
      ≠ genState.chain.map (fun b => b.data.transactions.length) ∧
    (mutate_block_data genState 0 emptyPayload).is_chain_valid mC = true := by
  refine ⟨rfl, rfl, by decide, by decide, by decide⟩

/-- C3 (amended): `is_chain_valid` is true immediately after a successful
`create_dual_genesis` and stays true after every successful `create_block`;
mutating the stored payload of any block at index ≥ 1 (to one with a
different serialization, the hash being collision-free) makes it false; but
mutating block 0's payload never changes the verdict, since verification
runs over indices ≥ 1 only and reads block 0 just through its stored hash
field. -/
theorem c3_amended_chain_validity :
    (∀ (m : HashModel) (now : Int) (fuel : Nat) (s sres : AvaBlockchain),
      s.chain = [] →
      s.create_dual_genesis m now fuel = some (sres, Except.ok ()) →
      sres.is_chain_valid m = true) ∧
    (∀ (m : HashModel) (now : Int) (fuel : Nat) (s s' : AvaBlockchain) (b : Block),
      s.is_chain_valid m = true →
      s.create_block m now fuel = some (s', Except.ok b) →
      s'.is_chain_valid m = true) ∧
    (∀ (m : HashModel) (s : AvaBlockchain) (i : Nat) (d : BlockData) (bi : Block),
      1 ≤ i →
      s.chain[i]? = some bi →
      Function.Injective m.sha256hex →
      s.is_chain_valid m = true →
      m.serBlockData d ≠ m.serBlockData bi.data →
      (mutate_block_data s i d).is_chain_valid m = false) ∧
    (∀ (m : HashModel) (s : AvaBlockchain) (d : BlockData),
      (mutate_block_data s 0 d).is_chain_valid m = s.is_chain_valid m) := by
  refine ⟨?_, ?_, ?_, ?_⟩
  · intro m now fuel s sres hchain hres
    unfold AvaBlockchain.create_dual_genesis at hres
    split at hres
    · simp at hres
    · split at hres
      · exact absurd hres (by simp)
      · rename_i n0 h0 hm0
        dsimp only at hres
        split at hres
        · exact absurd hres (by simp)
        · rename_i n1 h1 hm1
          simp only [Option.some.injEq, Prod.mk.injEq] at hres
          obtain ⟨hs, _⟩ := hres
          subst hs
          have hspec1 := mineFrom_spec m fuel _ n1 h1 hm1
          have hfst := hspec1.1
          simp only [calculate_hash] at hfst
          simp only [AvaBlockchain.is_chain_valid, hchain, List.nil_append]
          simp [chainValidFrom, calculate_hash, hfst]
  · intro m now fuel s s' b hvalid hres
    cases hlast : s.chain.getLast? with
    | none =>
        unfold AvaBlockchain.create_block at hres
        split at hres
        · simp at hres
        · rw [hlast] at hres
          simp at hres
    | some prev =>
        obtain ⟨hchain', _, hprev, _, _, hhash, _, _, _, _⟩ :=
          create_block_ok m now fuel s s' b prev hlast hres
        cases hc : s.chain with
        | nil => rw [hc] at hlast; simp at hlast
        | cons c0 rest =>
            have hvalid' : chainValidFrom m c0 rest = true := by
              simpa [AvaBlockchain.is_chain_valid, hc] using hvalid
            have hlastD : rest.getLastD c0 = prev := by
              rw [hc, getLast?_cons_getLastD] at hlast
              exact Option.some.inj hlast
            rw [List.getLastD_eq_getLast?] at hlastD
            have hsc : s'.chain = c0 :: (rest ++ [b]) := by
              rw [hchain', hc]; rfl
            simp only [AvaBlockchain.is_chain_valid, hsc]
            rw [chainValidFrom_append]
            simp [hvalid', hhash, hlastD, hprev, List.getLastD_eq_getLast?]
  · intro m s i d bi h1 hbi hinj hvalid hser
    obtain ⟨j, rfl⟩ : ∃ j, i = j + 1 := ⟨i - 1, by omega⟩
    cases hc : s.chain with
    | nil => rw [hc] at hbi; simp at hbi
    | cons c0 rest =>
        rw [hc] at hbi
        simp only [List.getElem?_cons_succ] at hbi
        have hvalid' : chainValidFrom m c0 rest = true := by
          simpa [AvaBlockchain.is_chain_valid, hc] using hvalid
        obtain ⟨hj, hbi'⟩ := List.getElem?_eq_some_iff.mp hbi
        have hmc : (mutate_block_data s (j + 1) d).chain = c0 :: setBlockData rest j d := by
          simp [mutate_block_data, hc, setBlockData]
        simp only [AvaBlockchain.is_chain_valid, hmc]
        exact mutation_breaks_validity m hinj c0 rest j hj d hvalid'
          (by rw [show rest.get ⟨j, hj⟩ = bi from hbi']; exact hser)
  · intro m s d
    cases hc : s.chain with
    | nil => simp [mutate_block_data, AvaBlockchain.is_chain_valid, hc, setBlockData]
    | cons c0 rest =>
        have hmc : (mutate_block_data s 0 d).chain = { c0 with data := d } :: rest := by
          simp [mutate_block_data, hc, setBlockData]
        simp only [AvaBlockchain.is_chain_valid, hmc, hc]
        exact chainValidFrom_congr_prev m rest { c0 with data := d } c0 rfl

/-- Witness for the C3 theorem: each conjunct at a concrete input — the
dual genesis run under `mC`, a concrete `create_block` append, the payload
mutation of block 1 of `genState` (flips to false), and the block-0
mutation (verdict unchanged). -/
theorem c3_amended_witness :
    genState.is_chain_valid mC = true ∧
    sW2.is_chain_valid mC = true ∧
    (mutate_block_data genState 1 emptyPayload).is_chain_valid mC = false ∧
    (mutate_block_data genState 0 emptyPayload).is_chain_valid mC
      = genState.is_chain_valid mC :=
  ⟨c3_amended_chain_validity.1 mC 0 1 AvaBlockchain.new genState rfl rfl,
    c3_amended_chain_validity.2.1 mC 7 1 sW sW2 bW2 rfl rfl,
    c3_amended_chain_validity.2.2.1 mC genState 1 emptyPayload genBlock1 (by decide) rfl
      mC_inj (by decide) (by decide),
    c3_amended_chain_validity.2.2.2 mC genState emptyPayload⟩

/-- Witness for C9: the concrete valid configuration `cW` with the concrete
length-64 digest `hash64`. -/
theorem c9_build_dual_genesis_witness :
    validate_config cW = Except.ok () ∧
    ((build_dual_genesis hash64 cW).1.index = 0 ∧
      (build_dual_genesis hash64 cW).2.index = 1 ∧
      (build_dual_genesis hash64 cW).2.previous_hash.length = 64) :=
  ⟨rfl, c9_build_dual_genesis_shape hash64 cW (fun _ => hexZeros_length 64) rfl⟩

/-- C6: `create_block` fails on an empty pending pool changing nothing; any
failure leaves the state unchanged (the pool is never cleared on failure);
and a success appends exactly one sealed block at `previous.index + 1`
linking to the previous stored hash, carrying exactly the pending
transactions in order at difficulty 2, after which the pool is cleared. -/
theorem c6_create_block_spec :
    (∀ (m : HashModel) (now : Int) (fuel : Nat) (s : AvaBlockchain),
      s.pending_transactions = [] →
      s.create_block m now fuel = some (s, Except.error "No pending transactions")) ∧
    (∀ (m : HashModel) (now : Int) (fuel : Nat) (s s' : AvaBlockchain) (msg : String),
      s.create_block m now fuel = some (s', Except.error msg) → s' = s) ∧
    (∀ (m : HashModel) (now : Int) (fuel : Nat) (s s' : AvaBlockchain) (b prev : Block),
      s.chain.getLast? = some prev →
      s.create_block m now fuel = some (s', Except.ok b) →
      s'.chain = s.chain ++ [b] ∧
      b.index = prev.index + 1 ∧
      b.previous_hash = prev.hash ∧
      b.data.transactions = s.pending_transactions ∧
      b.difficulty = 2 ∧
      b.hash = calculate_hash m b ∧
      strStartsWith b.hash (hexZeros 2) = true ∧
      s'.pending_transactions = [] ∧
      s'.entities = s.entities ∧
      s'.genesis_created = s.genesis_created) := by
  refine ⟨?_, ?_, ?_⟩
  · intro m now fuel s hpend
    simp [AvaBlockchain.create_block, hpend]
  · intro m now fuel s s' msg hres
    unfold AvaBlockchain.create_block at hres
    split at hres
    · simp only [Option.some.injEq, Prod.mk.injEq] at hres
      exact hres.1.symm
    · split at hres
      · simp only [Option.some.injEq, Prod.mk.injEq] at hres
        exact hres.1.symm
      · dsimp only at hres
        split at hres
        · exact absurd hres (by simp)
        · simp only [Option.some.injEq, Prod.mk.injEq] at hres
          exact absurd hres.2 (by simp)
  · intro m now fuel s s' b prev hlast hres
    exact create_block_ok m now fuel s s' b prev hlast hres

/-- Witness for C6: on the concrete one-block state `sW` with one pending
transaction, `create_block` under `mC` appends the explicitly computed block
`bW2` yielding `sW2`, with all the stated fields; and the two failure shapes
at the concrete empty-pool state. -/
theorem c6_create_block_witness :
    AvaBlockchain.new.create_block mC 7 1
      = some (AvaBlockchain.new, Except.error "No pending transactions") ∧
    (sW2.chain = sW.chain ++ [bW2] ∧
      bW2.index = blkW.index + 1 ∧
      bW2.previous_hash = blkW.hash ∧
      bW2.data.transactions = sW.pending_transactions ∧
      bW2.difficulty = 2 ∧
      bW2.hash = calculate_hash mC bW2 ∧
      strStartsWith bW2.hash (hexZeros 2) = true ∧
      sW2.pending_transactions = [] ∧
      sW2.entities = sW.entities ∧
      sW2.genesis_created = sW.genesis_created) :=
  ⟨c6_create_block_spec.1 mC 7 1 AvaBlockchain.new rfl,
    c6_create_block_spec.2.2 mC 7 1 sW sW2 bW2 blkW rfl rfl⟩

/-- Witness for the C5 theorem: a concrete resolving engine (`c5eng`, five
For votes, quorum met at time 10) transitions with its record and event
written, and the concrete post-deadline cast on `c5engLate` hits the
record-free branch. -/
theorem c5_amended_witness :
    ((∃ rec, alookup "p1"
        (ConstitutionalEngine.check_proposal_resolution 10 c5eng "p1").1.voting_records
          = some rec ∧ rec.proposal_id = "p1") ∧
      (∃ ev, (ConstitutionalEngine.check_proposal_resolution 10 c5eng "p1").1.constitutional_history
          = c5eng.constitutional_history ++ [ev] ∧
        ev.event_type = EventType.ProposalResolved)) ∧
    ConstitutionalEngine.cast_vote 200 c5engLate "p1" (mkVote "bob" VoteType.For 200) =
      ( { c5engLate with active_proposals :=
            (amodify "p1" (fun q => { q with status := ProposalStatus.QuorumNotMet })
              c5engLate.active_proposals) }
      , Except.error "Voting deadline has passed" ) :=
  ⟨c5_amended_resolution_transitions_write_records.1 10 c5eng "p1" c5prop rfl
      { c5prop with status := ProposalStatus.Approved } rfl (by decide),
    c5_amended_resolution_transitions_write_records.2 200 c5engLate "p1"
      (scenProposal (f32round (Rat.divInt 1 2)) (f32round (Rat.divInt 67 100)) 100)
      (mkVote "bob" VoteType.For 200) rfl rfl (by decide)⟩

/-- Witness for the C8 theorem: each branch of `cast_vote` exercised at a
concrete input — unknown proposal, Draft proposal, expired deadline, a live
vote, and an overwriting re-vote. -/
theorem c8_cast_vote_witness :
    ConstitutionalEngine.cast_vote 0 (ConstitutionalEngine.new 0) "nope" (mkVote "w" VoteType.For 0)
      = (ConstitutionalEngine.new 0, Except.error "Proposal not found") ∧
    ConstitutionalEngine.cast_vote 0 c8engDraft "p1" (mkVote "w" VoteType.For 0)
      = (c8engDraft, Except.error "Proposal is not accepting votes") ∧
    ConstitutionalEngine.cast_vote 200 c5engLate "p1" (mkVote "w" VoteType.For 200) =
      ( { c5engLate with active_proposals :=
            (amodify "p1" (fun q => { q with status := ProposalStatus.QuorumNotMet })
              c5engLate.active_proposals) }
      , Except.error "Voting deadline has passed" ) ∧
    ConstitutionalEngine.cast_vote 10 c5engLate "p1" c8vote =
      ConstitutionalEngine.check_proposal_resolution 10
        { c5engLate with
            active_proposals :=
              (amodify "p1" (fun q => { q with votes := aupsert c8vote.voter c8vote q.votes })
                c5engLate.active_proposals)
          , constitutional_history := c5engLate.constitutional_history ++
              [voteCastEvent 10 "p1" c8vote] }
        "p1" ∧
    ((aupsert "w" (mkVote "w" VoteType.Against 5)
        [("w", mkVote "w" VoteType.For 0)]).length = 1 ∧
      alookup "w" (aupsert "w" (mkVote "w" VoteType.Against 5)
        [("w", mkVote "w" VoteType.For 0)]) = some (mkVote "w" VoteType.Against 5)) :=
  ⟨c8_cast_vote_spec.1 0 (ConstitutionalEngine.new 0) "nope" (mkVote "w" VoteType.For 0) rfl,
    c8_cast_vote_spec.2.1 0 c8engDraft "p1"
      { scenProposal (f32round (Rat.divInt 1 2)) (f32round (Rat.divInt 67 100)) 100 with
          status := ProposalStatus.Draft }
      (mkVote "w" VoteType.For 0) rfl (by decide),
    (c8_cast_vote_spec.2.2.1 200 c5engLate "p1"
      (scenProposal (f32round (Rat.divInt 1 2)) (f32round (Rat.divInt 67 100)) 100)
      (mkVote "w" VoteType.For 200) rfl rfl (by decide)).1,
    c8_cast_vote_spec.2.2.2.1 10 c5engLate "p1"
      (scenProposal (f32round (Rat.divInt 1 2)) (f32round (Rat.divInt 67 100)) 100)
      c8vote rfl rfl (by decide),
    c8_cast_vote_spec.2.2.2.2 (mkVote "w" VoteType.Against 5)
      [("w", mkVote "w" VoteType.For 0)] (by decide)⟩

end AVA
